import Mathlib

/-!
Verification of yabsnap's retention/scheduling core against its source.

Shallow embedding of `src/code/snap_operator.py`, `src/code/batch_deleter.py`
and `src/code/main.py`.  Points in time are modelled as `Int` seconds since
the Unix epoch (Python `datetime` values form a total order that the
monotone injection `timestamp()` preserves, and all arithmetic the code
performs on them — `total_seconds()` of differences, `timestamp() //
interval` — is exactly `Int` arithmetic with floor division).  Filesystem
state (the destination directory holding the snapshots of one
configuration) is modelled as the chronologically ordered list of snapshots
that `_get_old_backups` yields; mutating operations return the lists of
snapshots they create and delete.

The modules `configs.py`, `snap_holder.py`, `deletion_logic.py` and
`global_flags.py` are not among the provided sources; the data they
contribute (`Config` fields, `Snapshot` fields, `DeleteManager.get_deletes`,
`TIME_FORMAT`) is modelled from the spec where so marked.
-/

namespace Yabsnap

/-- Snapshot metadata, spec §3 `SnapshotRecord.metadata`
(`snap_holder.py` is not among the sources): `trigger` is one of
`""`, `"S"`, `"I"`, `"U"`, plus a free-form comment. -/
structure Metadata where
  trigger : String
  comment : String
  deriving DecidableEq, Repr

/-- A snapshot as `snap_holder.Snapshot` exposes it to the core:
`target` (the path, destination prefix ++ 14-digit timestamp suffix),
`snaptime` (seconds since epoch, the parse of that suffix), and metadata. -/
structure Snapshot where
  target : String
  snaptime : Int
  metadata : Metadata
  deriving DecidableEq, Repr

/-- A configuration record, spec §3 `ConfigurationRecord` (`configs.py` is
not among the sources).  `compatible` models the result of
`is_compatible_volume()`, `isBtrfs` models `snap_type ==
snap_mechanisms.SnapType.BTRFS`.  `deletionRules` is the ordered
`(horizon, spacing)` tier list of spec §3 `RetentionRuleSet`. -/
structure Config where
  configFile : String
  source : String
  destPrefix : String
  keepUser : Int
  keepPreinstall : Int
  minKeepSecs : Int
  triggerInterval : Int
  preinstallInterval : Int
  deletionRules : List (Int × Int)
  compatible : Bool
  isBtrfs : Bool
  deriving DecidableEq, Repr

/-- Python's prefix slice `a[:stop]` for a possibly negative `stop`:
a negative stop counts from the end of the list and clamps at 0. -/
def pyListTake {α : Type} (a : List α) (stop : Int) : List α :=
  let n : Int := a.length
  let stop' : Int := if stop < 0 then max (n + stop) 0 else min stop n
  a.take stop'.toNat

/-- `snap_operator._all_but_last_k`: raises for `k < 0`, otherwise yields
`array[: len(array) - k]` (Python slice semantics, see `pyListTake`). -/
def allButLastK {α : Type} (a : List α) (k : Int) : Except String (List α) :=
  if k < 0 then .error ("k = " ++ toString k ++ " < 0")
  else .ok (pyListTake a ((a.length : Int) - k))

example : allButLastK [1, 2, 3] 0 = .ok [1, 2, 3] := rfl
example : allButLastK [1, 2, 3] 2 = .ok [1] := rfl
example : allButLastK [1, 2, 3] 3 = .ok ([] : List Nat) := rfl
example : allButLastK [1, 2, 3] 4 = .ok [1, 2] := rfl
example : allButLastK [1, 2, 3] 6 = .ok ([] : List Nat) := rfl
example : allButLastK [1, 2, 3] (-1) = .error "k = -1 < 0" := rfl

/-- Python's `c in s` on a one-character needle, over the character list
(so terms evaluate by kernel reduction). -/
def strContainsChar (s : String) (c : Char) : Bool :=
  s.toList.any (fun x => decide (x = c))

/-- Python's `s.endswith(t)`, over the character lists. -/
def strEndsWith (s t : String) : Bool :=
  decide (s.toList.drop (s.toList.length - t.toList.length) = t.toList)

/-- Python's `s.upper()`, over the character list. -/
def strToUpper (s : String) : String :=
  String.mk (s.toList.map Char.toUpper)

/-! ### Retention policy engine (spec-modelled) -/

/-- Marking state of one deletion candidate while the tiers run. -/
inductive Mark where
  | unmarked
  | keep
  | del
  deriving DecidableEq, Repr

/-- A candidate `(timestamp, identifier)` together with its current mark. -/
structure MarkedCand where
  t : Int
  id : String
  mark : Mark
  deriving DecidableEq, Repr

/-- One tier's pass over the candidates, walking newest to oldest (the input
list here is newest first).  `occ` is the set of spacing-window indices (of
width `d`, anchored at `now`) already holding a kept candidate in this tier.
A candidate within the tier's horizon `h` is kept if its window is free and
marked for deletion if its window is already occupied; marks made by an
earlier tier are never changed ("a candidate already marked keep by an
earlier (more recent) tier is never reconsidered by a later tier"). -/
def tierWalk (now h d : Int) : List MarkedCand → List Int → List MarkedCand
  | [], _ => []
  | c :: rest, occ =>
    if now - c.t ≤ h then
      let w := Int.fdiv (now - c.t) d
      match c.mark with
      | Mark.keep => c :: tierWalk now h d rest (w :: occ)
      | Mark.del => c :: tierWalk now h d rest occ
      | Mark.unmarked =>
        if w ∈ occ then ⟨c.t, c.id, Mark.del⟩ :: tierWalk now h d rest occ
        else ⟨c.t, c.id, Mark.keep⟩ :: tierWalk now h d rest (w :: occ)
    else c :: tierWalk now h d rest occ

/-- Applies one `(horizon, spacing)` tier to the (oldest-first) marked
candidate list. -/
def tierStep (now : Int) (mcs : List MarkedCand) (rule : Int × Int) :
    List MarkedCand :=
  (tierWalk now rule.1 rule.2 mcs.reverse []).reverse

/-- Modelled from the spec: `deletion_logic.DeleteManager.get_deletes`
(file `src/code/deletion_logic.py` is not among the sources).  Spec §4.1:
`candidates` is chronologically ordered oldest→newest; for each tier, in
increasing-horizon order, walking from newest to oldest the engine keeps
the first (newest) candidate in each non-overlapping spacing window of the
tier's width and marks every other candidate falling within an
already-kept window as a deletion candidate; the output is every candidate
ultimately marked for deletion, in input relative order. -/
def getDeletes (rules : List (Int × Int)) (now : Int)
    (candidates : List (Int × String)) : List (Int × String) :=
  let init := candidates.map (fun p => MarkedCand.mk p.1 p.2 Mark.unmarked)
  let final := rules.foldl (tierStep now) init
  (final.filter (fun c => c.mark = Mark.del)).map (fun c => (c.t, c.id))

/-! ### Lifecycle orchestrator (`snap_operator.SnapOperator`) -/

/-- The candidate list `_apply_deletion_rules` builds from the snapshots it
receives: only triggers `""` or `"S"` are considered for expiry, and the
synthetic trailing placeholder `(now, "")` denotes the backup that would be
taken next. -/
def deletionCandidates (now : Int) (snaps : List Snapshot) :
    List (Int × String) :=
  (snaps.filter (fun x => x.metadata.trigger = "" ∨ x.metadata.trigger = "S")
    |>.map (fun x => (x.snaptime, x.target))) ++ [(now, "")]

/-- The loop body of `_apply_deletion_rules` over the engine's reported
deletions: on the placeholder (`target == ""`) it returns early with
"no new backup needed"; any other reported pair is deleted only when
`now - when` exceeds `min_keep_secs`, and otherwise merely logged.
Returns (new backup needed?, pairs actually deleted). -/
def deletionLoop (now minKeep : Int) :
    List (Int × String) → Bool × List (Int × String)
  | [] => (true, [])
  | (when_, target) :: rest =>
    if target = "" then (false, [])
    else if now - when_ > minKeep then
      let r := deletionLoop now minKeep rest
      (r.1, (when_, target) :: r.2)
    else deletionLoop now minKeep rest

/-- `SnapOperator._apply_deletion_rules`, parameterized over the retention
engine's report function (the code calls
`deletion_logic.DeleteManager(config.deletion_rules).get_deletes`, whose
module is not among the sources; `getDeletes` above is its spec model). -/
def applyDeletionRules (engine : Int → List (Int × String) → List (Int × String))
    (minKeep now : Int) (snaps : List Snapshot) :
    Bool × List (Int × String) :=
  deletionLoop now minKeep (engine now (deletionCandidates now snaps))

/-- What a mutating orchestrator operation did: the snapshots it created
and the snapshots it deleted, in order of the underlying mechanism calls. -/
structure OpResult where
  created : List Snapshot
  deleted : List Snapshot
  deriving DecidableEq, Repr

/-- The no-mutation outcome. -/
def OpResult.noop : OpResult := ⟨[], []⟩

/-- The snapshot `Snapshot(config.dest_prefix + now_str)` freshly created
with the given trigger and optional comment. -/
def mkSnapshot (cfg : Config) (now : Int) (nowStr : String)
    (trigger : String) (comment : Option String) : Snapshot :=
  ⟨cfg.destPrefix ++ nowStr, now, ⟨trigger, comment.getD ""⟩⟩

/-- `SnapOperator._create_and_maintain_n_backups`.  `snaps` is the
chronologically ordered result of `_get_old_backups` (computed before the
new snapshot appears).  For `count > 0` a new snapshot is created and
`_all_but_last_k(previous, count - 1)` is deleted; otherwise nothing is
created and all of `previous` is deleted (`k = 0`).  Both `k` values are
`≥ 0`, so the `k < 0` error branch of `_all_but_last_k` cannot fire; its
slice is `pyListTake previous (len - k)`. -/
def createAndMaintain (cfg : Config) (now : Int) (nowStr : String)
    (count : Int) (trigger : String) (comment : Option String)
    (snaps : List Snapshot) : OpResult :=
  if cfg.compatible = false then OpResult.noop
  else
    let previous := snaps.filter (fun x => x.metadata.trigger = trigger)
    let nLeave : Int := if count > 0 then count - 1 else 0
    let created := if count > 0 then [mkSnapshot cfg now nowStr trigger comment]
      else []
    { created := created
    , deleted := pyListTake previous ((previous.length : Int) - nLeave) }

/-- `SnapOperator.create`: user-triggered, `count = keep_user`,
trigger `"U"`. -/
def create (cfg : Config) (now : Int) (nowStr : String)
    (comment : Option String) (snaps : List Snapshot) : OpResult :=
  createAndMaintain cfg now nowStr cfg.keepUser "U" comment snaps

/-- `SnapOperator.on_pacman`: the last I-tagged snapshot in scan order is
the most recent; if less than `preinstall_interval` seconds old, no-op,
else create-and-maintain `keep_preinstall` I-tagged snapshots.  `comment`
models `os_utils.last_pacman_command()`. -/
def onPacman (cfg : Config) (now : Int) (nowStr : String)
    (comment : Option String) (snaps : List Snapshot) : OpResult :=
  match (snaps.filter (fun x => x.metadata.trigger = "I")).getLast? with
  | some lastSnap =>
    if now - lastSnap.snaptime < cfg.preinstallInterval then OpResult.noop
    else createAndMaintain cfg now nowStr cfg.keepPreinstall "I" comment snaps
  | none => createAndMaintain cfg now nowStr cfg.keepPreinstall "I" comment snaps

/-- `SnapOperator._next_trigger_time`: from the most recent snapshot whose
trigger contains `"S"`, with phase 0 (UTC), the next grid instant is
`(snaptime // trigger_interval + 1) * trigger_interval` (Python `//` is
floor division, `Int.fdiv`); `none` when no such snapshot exists. -/
def nextTriggerTime (cfg : Config) (snaps : List Snapshot) : Option Int :=
  let previous := snaps.filter (fun x => strContainsChar x.metadata.trigger 'S')
  match previous.getLast? with
  | none => none
  | some lastSnap =>
    some ((Int.fdiv lastSnap.snaptime cfg.triggerInterval + 1)
      * cfg.triggerInterval)

/-- Outcome of `scheduled`: the snapshot created (if any) and the
`(timestamp, target)` pairs on which `Snapshot(target).delete()` ran —
the scheduled path deletes by the target path the engine reported. -/
structure SchedResult where
  created : List Snapshot
  deletedPairs : List (Int × String)
  deriving DecidableEq, Repr

/-- The no-mutation outcome of the scheduled path. -/
def SchedResult.noop : SchedResult := ⟨[], []⟩

/-- `SnapOperator.scheduled`.  `buffer` models `configs.DURATION_BUFFER`
(`configs.py` is not among the sources; the spec calls it the guard
buffer).  No-op on an incompatible volume, and while
`now <= wait_until - buffer`.  Otherwise applies the deletion rules to the
S-tagged snapshots and creates a new S snapshot unless the engine reported
the placeholder. -/
def scheduled (cfg : Config) (buffer now : Int) (nowStr : String)
    (snaps : List Snapshot) : SchedResult :=
  if cfg.compatible = false then SchedResult.noop
  else
    let gated := match nextTriggerTime cfg snaps with
      | some waitUntil => decide (now ≤ waitUntil - buffer)
      | none => false
    if gated then SchedResult.noop
    else
      let previous := snaps.filter (fun x => strContainsChar x.metadata.trigger 'S')
      let r := applyDeletionRules (getDeletes cfg.deletionRules)
        cfg.minKeepSecs now previous
      { created := if r.1 then [mkSnapshot cfg now nowStr "S" none] else []
      , deletedPairs := r.2 }

/-! ### Explicit delete (`snap_operator.find_target`, `main._delete_snap`) -/

/-- Modelled from the spec: `global_flags.TIME_FORMAT_LEN`
(`global_flags.py` is not among the sources); the glossary fixes the
canonical suffix as the fourteen-digit `YYYYMMDDHHMMSS`. -/
def timeFormatLen : Nat := 14

/-- `snap_operator.find_target`: raises when the suffix is shorter than
the minimum identifying length, otherwise returns the first existing
backup whose target path ends with the suffix. -/
def findTarget (snaps : List Snapshot) (suffix : String) :
    Except String (Option Snapshot) :=
  if suffix.length < timeFormatLen then
    .error "Length of snapshot identifier suffix must be at least 14."
  else .ok (snaps.find? (fun s => strEndsWith s.target suffix))

/-- Outcome of `main._delete_snap`: targets actually deleted, the configs
collected for sync (only those where a target was found AND whose snap
type is btrfs), and whether the "Target not found in any config." message
was printed — the code prints it exactly when `to_sync` stayed empty. -/
structure DeleteRunResult where
  deletedTargets : List String
  toSync : List Config
  notFoundReported : Bool
  deriving DecidableEq, Repr

/-- The per-configuration loop of `main._delete_snap`. -/
def deleteSnapGo (suffix : String) :
    List (Config × List Snapshot) → Except String (List String × List Config)
  | [] => .ok ([], [])
  | (cfg, snaps) :: rest => do
    let found ← findTarget snaps suffix
    let r ← deleteSnapGo suffix rest
    match found with
    | some snap =>
      .ok (snap.target :: r.1, if cfg.isBtrfs then cfg :: r.2 else r.2)
    | none => .ok r

/-- `main._delete_snap` over all configurations (post-hooks and the
optional sync pass mutate nothing that this model tracks). -/
def deleteSnap (configsAndSnaps : List (Config × List Snapshot))
    (suffix : String) : Except String DeleteRunResult := do
  let r ← deleteSnapGo suffix configsAndSnaps
  .ok ⟨r.1, r.2, r.2.isEmpty⟩

/-! ### Calendar timestamps (model of the Python `datetime` values used) -/

/-- A wall-clock instant with second precision, as the code's `datetime`
values carry (naive, no timezone). -/
structure DT where
  year : Nat
  month : Nat
  day : Nat
  hour : Nat
  minute : Nat
  second : Nat
  deriving DecidableEq, Repr

/-- Gregorian leap year. -/
def isLeap (y : Nat) : Bool :=
  y % 4 = 0 && (y % 100 ≠ 0 || y % 400 = 0)

/-- Days in a Gregorian month. -/
def daysInMonth (y m : Nat) : Nat :=
  if m = 2 then (if isLeap y then 29 else 28)
  else if m = 4 ∨ m = 6 ∨ m = 9 ∨ m = 11 then 30
  else 31

/-- The field ranges `datetime.datetime` accepts (year 1..9999; seconds
0..59 — the constructor rejects leap seconds). -/
def DT.valid (dt : DT) : Bool :=
  1 ≤ dt.year && dt.year ≤ 9999 && 1 ≤ dt.month && dt.month ≤ 12 &&
  1 ≤ dt.day && dt.day ≤ daysInMonth dt.year dt.month &&
  dt.hour ≤ 23 && dt.minute ≤ 59 && dt.second ≤ 59

/-- Days from the civil date to 1970-01-01 (standard civil-from-days
computation, exact for the proleptic Gregorian calendar). -/
def daysFromCivil (y m d : Int) : Int :=
  let y' := if m ≤ 2 then y - 1 else y
  let era := Int.fdiv y' 400
  let yoe := y' - era * 400
  let mp := if m > 2 then m - 3 else m + 9
  let doy := Int.fdiv (153 * mp + 2) 5 + d - 1
  let doe := yoe * 365 + Int.fdiv yoe 4 - Int.fdiv yoe 100 + doy
  era * 146097 + doe - 719468

/-- Seconds since the Unix epoch of a wall-clock instant (the order
embedding under which `datetime` comparison and subtraction become `Int`
comparison and subtraction). -/
def DT.toTimestamp (dt : DT) : Int :=
  daysFromCivil dt.year dt.month dt.day * 86400
    + dt.hour * 3600 + dt.minute * 60 + dt.second

example : DT.toTimestamp ⟨2024, 11, 1, 20, 10, 15⟩ = 1730491815 := by decide
example : DT.toTimestamp ⟨1, 1, 1, 0, 0, 0⟩ = -62135596800 := by decide
example : DT.toTimestamp ⟨9999, 12, 31, 23, 59, 59⟩ = 253402300799 := by decide

/-- Numeric value of a digit-only character list. -/
def natOfDigits : List Char → Option Nat
  | [] => some 0
  | c :: cs =>
    if c.isDigit then
      (natOfDigits cs).map (fun n => (c.toNat - 48) * 10 ^ cs.length + n)
    else none

example : natOfDigits "2024".toList = some 2024 := by decide
example : natOfDigits "20a4".toList = none := by decide

/-- `datetime.strptime(s, "%Y%m%d%H%M%S")` on the canonical fixed-width
form: fourteen digits `YYYYMMDDHHMMSS` whose fields pass the `datetime`
range checks.  (`global_flags.TIME_FORMAT` is modelled from the spec's
fixed-width timestamp, `%Y%m%d%H%M%S`.) -/
def strptime14 (s : String) : Option DT :=
  let cs := s.toList
  if cs.length = 14 then
    match natOfDigits (cs.take 4), natOfDigits ((cs.drop 4).take 2),
        natOfDigits ((cs.drop 6).take 2), natOfDigits ((cs.drop 8).take 2),
        natOfDigits ((cs.drop 10).take 2), natOfDigits ((cs.drop 12).take 2) with
    | some y, some mo, some d, some h, some mi, some sec =>
      let dt : DT := ⟨y, mo, d, h, mi, sec⟩
      if dt.valid then some dt else none
    | _, _, _, _, _, _ => none
  else none

example : strptime14 "20241101201015" = some ⟨2024, 11, 1, 20, 10, 15⟩ := by
  decide
example : strptime14 "20241301201015" = none := by decide
example : strptime14 "not-a-date" = none := by decide

/-- The character at index `i`, or `'?'` past the end. -/
def charAt (cs : List Char) (i : Nat) : Char :=
  cs.getD i '?'

/-- The `HH[:MM[:SS]]` time part of an ISO 8601 string (fractional seconds
and timezone offsets are not modelled; the code never passes them). -/
def parseIsoTime (cs : List Char) : Option (Nat × Nat × Nat) :=
  if cs.length = 2 then (natOfDigits cs).map (fun h => (h, 0, 0))
  else if cs.length = 5 then
    if charAt cs 2 = ':' then
      match natOfDigits (cs.take 2), natOfDigits (cs.drop 3) with
      | some h, some mi => some (h, mi, 0)
      | _, _ => none
    else none
  else if cs.length = 8 then
    if charAt cs 2 = ':' ∧ charAt cs 5 = ':' then
      match natOfDigits (cs.take 2), natOfDigits ((cs.drop 3).take 2),
          natOfDigits (cs.drop 6) with
      | some h, some mi, some sec => some (h, mi, sec)
      | _, _, _ => none
    else none
  else none

/-- `datetime.fromisoformat`: `YYYY-MM-DD`, optionally followed by a
single separator character (any character, per CPython ≥ 3.11) and
`HH[:MM[:SS]]`; the resulting fields must pass the `datetime` range
checks. -/
def fromisoformat (s : String) : Option DT :=
  let cs := s.toList
  if 10 ≤ cs.length ∧ charAt cs 4 = '-' ∧ charAt cs 7 = '-' then
    match natOfDigits (cs.take 4), natOfDigits ((cs.drop 5).take 2),
        natOfDigits ((cs.drop 8).take 2) with
    | some y, some mo, some d =>
      if cs.length = 10 then
        let dt : DT := ⟨y, mo, d, 0, 0, 0⟩
        if dt.valid then some dt else none
      else
        -- one separator character at index 10, then the time part
        match parseIsoTime (cs.drop 11) with
        | some hms =>
          let dt : DT := ⟨y, mo, d, hms.1, hms.2.1, hms.2.2⟩
          if dt.valid then some dt else none
        | none => none
    | _, _, _ => none
  else none

example : fromisoformat "2024-11-01T20:10:15" = some ⟨2024, 11, 1, 20, 10, 15⟩
  := by decide
example : fromisoformat "2024-11-01_20:10:15" = some ⟨2024, 11, 1, 20, 10, 15⟩
  := by decide
example : fromisoformat "2024-11-01" = some ⟨2024, 11, 1, 0, 0, 0⟩ := by decide
example : fromisoformat "not-a-date" = none := by decide
example : fromisoformat "20241101201015" = none := by decide

/-- Left-pads a number with zeros to the given width. -/
def padNum (w : Nat) (n : Nat) : String :=
  let s := toString n
  String.mk (List.replicate (w - s.length) '0') ++ s

/-- `dt.strftime("%Y%m%d%H%M%S")`: the canonical fourteen-digit form. -/
def strftimeCanonical (dt : DT) : String :=
  padNum 4 dt.year ++ padNum 2 dt.month ++ padNum 2 dt.day ++
  padNum 2 dt.hour ++ padNum 2 dt.minute ++ padNum 2 dt.second

example : strftimeCanonical ⟨2024, 11, 1, 20, 10, 15⟩ = "20241101201015" := by
  decide

/-- `batch_deleter.iso8601_to_timestamp_string`: a string already in the
canonical `%Y%m%d%H%M%S` form is returned unchanged; otherwise an
ISO 8601 string is reformatted to the canonical form; anything else is a
user-facing `ValueError` naming both accepted formats. -/
def iso8601ToTimestampString (suffix : String) : Except String String :=
  match strptime14 suffix with
  | some _ => .ok suffix
  | none =>
    match fromisoformat suffix with
    | some dt => .ok (strftimeCanonical dt)
    | none => .error ("Suffix only accepts the following formats: "
        ++ "1. %Y%m%d%H%M%S (e.g. 20241101201015) "
        ++ "2. ISO 8601 compliant timestamp string (e.g. 2024-11-01_20:10:15)")

/-! ### Batch filter engine (`batch_deleter.py`) -/

/-- `datetime.datetime.min` as an epoch timestamp (`0001-01-01 00:00:00`). -/
def datetimeMinTs : Int := DT.toTimestamp ⟨1, 1, 1, 0, 0, 0⟩

/-- `datetime.datetime.max` as an epoch bound: `9999-12-31 23:59:59.999999`
lies strictly between the whole seconds 253402300799 and 253402300800, so
for the whole-second snaptimes the code compares, `snaptime <
datetime.max` is `snaptime < 253402300800`. -/
def datetimeMaxTs : Int := DT.toTimestamp ⟨9999, 12, 31, 23, 59, 59⟩ + 1

/-- `batch_deleter.IndicatorFilter` after `__init__`: `_available` is false
exactly when the indicator string is empty; the stored indicator is
upper-cased. -/
structure IndicatorFilter where
  available : Bool
  indicator : String
  deriving DecidableEq, Repr

/-- `IndicatorFilter.__init__`. -/
def IndicatorFilter.init (indicator : String) : IndicatorFilter :=
  ⟨indicator ≠ "", strToUpper indicator⟩

/-- `IndicatorFilter.__call__`: rejects everything when unavailable, else
matches snapshots whose trigger equals the indicator. -/
def IndicatorFilter.call (f : IndicatorFilter) (snap : Snapshot) : Bool :=
  if f.available = false then false
  else decide (snap.metadata.trigger = f.indicator)

/-- `batch_deleter.TimeScopeFilter` after `__init__`: `_available` is false
when NOT both bound strings were supplied (`not (start and end)`); each
missing bound is stored as `datetime.min` / `datetime.max`. -/
structure TimeScopeFilter where
  available : Bool
  startTs : Int
  endTs : Int
  deriving DecidableEq, Repr

/-- `TimeScopeFilter.__init__`; a supplied bound that fails
`strptime(_, TIME_FORMAT)` raises, modelled as `none`. -/
def TimeScopeFilter.init (startStr endStr : String) : Option TimeScopeFilter :=
  let available := startStr ≠ "" && endStr ≠ ""
  let startDt := if startStr = "" then some datetimeMinTs
    else (strptime14 startStr).map DT.toTimestamp
  let endDt := if endStr = "" then some datetimeMaxTs
    else (strptime14 endStr).map DT.toTimestamp
  match startDt, endDt with
  | some st, some en => some ⟨available, st, en⟩
  | _, _ => none

/-- `TimeScopeFilter.__call__`: rejects everything when unavailable, else
matches `start <= snaptime < end`. -/
def TimeScopeFilter.call (f : TimeScopeFilter) (snap : Snapshot) : Bool :=
  if f.available = false then false
  else decide (f.startTs ≤ snap.snaptime ∧ snap.snaptime < f.endTs)

/-- A constructed filter object, as the tuple `*filters` passes them to
`apply_snapshot_filters`. -/
inductive BatchFilter where
  | ind (f : IndicatorFilter)
  | scope (f : TimeScopeFilter)
  deriving DecidableEq, Repr

/-- A filter object invoked on one snapshot. -/
def BatchFilter.call : BatchFilter → Snapshot → Bool
  | .ind f, snap => f.call snap
  | .scope f, snap => f.call snap

/-- The values that can appear as elements during the set intersection in
`apply_snapshot_filters`: snapshots, and the `filter(...)` iterator
objects themselves (identified by their position in the filter tuple). -/
inductive PyObj where
  | snapObj (s : Snapshot)
  | filterIterObj (idx : Nat)
  deriving DecidableEq, Repr

/-- Stable ascending insertion by `snaptime` (Python `sorted` with
`key=lambda snap: snap.snaptime`). -/
def insertBySnaptime (s : Snapshot) : List Snapshot → List Snapshot
  | [] => [s]
  | x :: xs =>
    if s.snaptime ≤ x.snaptime then s :: x :: xs
    else x :: insertBySnaptime s xs

/-- Sorts a snapshot list ascending by `snaptime`. -/
def sortBySnaptime (l : List Snapshot) : List Snapshot :=
  l.foldr insertBySnaptime []

/-- `batch_deleter.apply_snapshot_filters`.  For each configuration the
code runs
`filted_snaps_set.intersection_update(filter(func, snaps) for func in filters)`:
the single argument of `intersection_update` is the generator, and
`set.intersection_update` treats its argument as an iterable of candidate
ELEMENTS — so the snapshot set is intersected with the collection of the
`filter(func, snaps)` iterator objects themselves, never with their
contents.  No iterator object equals a snapshot (and with zero filters the
generator is empty), so the surviving set is intersected away to nothing.
The model makes that elementwise comparison explicit via `PyObj`. -/
def applySnapshotFilters (mapping : List (Config × List Snapshot))
    (filters : List BatchFilter) : List (Config × List Snapshot) :=
  mapping.map (fun p =>
    let snapSet := p.2.dedup
    let genElems : List PyObj :=
      (List.range filters.length).map PyObj.filterIterObj
    let intersected :=
      snapSet.filter (fun s => decide (PyObj.snapObj s ∈ genElems))
    (p.1, sortBySnaptime intersected))

/-- What the spec says the composition computes for one configuration:
the snapshots passing every active filter (logical AND), ascending by
`snaptime`.  (Definition follows the spec's words, for comparison with
`applySnapshotFilters` which follows the code.) -/
def specFilterComposition (snaps : List Snapshot)
    (filters : List BatchFilter) : List Snapshot :=
  sortBySnaptime (snaps.filter (fun s => filters.all (fun f => f.call s)))

/-! ### Concrete fixtures for witness runs -/

/-- A compatible btrfs configuration with one retention tier. -/
def cfgA : Config :=
  { configFile := "/etc/yabsnap/configs/home.conf"
  , source := "/home"
  , destPrefix := "/.snapshots/@home-"
  , keepUser := 1
  , keepPreinstall := 1
  , minKeepSecs := 1800
  , triggerInterval := 43200
  , preinstallInterval := 3600
  , deletionRules := [(86400, 3600)]
  , compatible := true
  , isBtrfs := false }

/-- `cfgA` with the btrfs snap type. -/
def cfgB : Config := { cfgA with isBtrfs := true }

/-- S-tagged snapshot at epoch second 100. -/
def snapS1 : Snapshot := ⟨"/.snapshots/@home-19700101000140", 100, ⟨"S", ""⟩⟩

/-- S-tagged snapshot at epoch second 200. -/
def snapS2 : Snapshot := ⟨"/.snapshots/@home-19700101000320", 200, ⟨"S", ""⟩⟩

/-- I-tagged snapshot at epoch second 200. -/
def snapI1 : Snapshot := ⟨"/.snapshots/@home-19700101000321", 200, ⟨"I", ""⟩⟩

/-- I-tagged snapshot at epoch second 300. -/
def snapI2 : Snapshot := ⟨"/.snapshots/@home-19700101000500", 300, ⟨"I", ""⟩⟩

/-- U-tagged snapshot at epoch second 400. -/
def snapU1 : Snapshot := ⟨"/.snapshots/@home-19700101000640", 400, ⟨"U", ""⟩⟩

/-- U-tagged snapshot at epoch second 500. -/
def snapU2 : Snapshot := ⟨"/.snapshots/@home-19700101000820", 500, ⟨"U", ""⟩⟩

/-- U-tagged snapshot at epoch second 600. -/
def snapU3 : Snapshot := ⟨"/.snapshots/@home-19700101001000", 600, ⟨"U", ""⟩⟩

/-! ### Helper lemmas -/

/-- Every pair the deletion loop deletes has a non-empty target, is older
than the floor, and comes from the engine's report. -/
lemma deletionLoop_deleted_sound (now minKeep : Int) :
    ∀ l : List (Int × String), ∀ p ∈ (deletionLoop now minKeep l).2,
      p.2 ≠ "" ∧ now - p.1 > minKeep ∧ p ∈ l := by
  intro l
  induction l with
  | nil => intro p hp; simp [deletionLoop] at hp
  | cons hd tl ih =>
    intro p hp
    obtain ⟨w, t⟩ := hd
    simp only [deletionLoop] at hp
    by_cases h1 : t = ""
    · simp [h1] at hp
    · rw [if_neg h1] at hp
      by_cases h2 : now - w > minKeep
      · rw [if_pos h2] at hp
        simp only at hp
        rcases List.mem_cons.mp hp with h | h
        · subst h
          exact ⟨h1, h2, List.mem_cons_self _ _⟩
        · obtain ⟨a, b, c⟩ := ih p h
          exact ⟨a, b, List.mem_cons_of_mem _ c⟩
      · rw [if_neg h2] at hp
        obtain ⟨a, b, c⟩ := ih p hp
        exact ⟨a, b, List.mem_cons_of_mem _ c⟩

/-- A tier pass rewrites marks but neither reorders nor rewrites the
`(timestamp, identifier)` payloads. -/
lemma tierWalk_map_proj (now h d : Int) :
    ∀ (l : List MarkedCand) (occ : List Int),
      (tierWalk now h d l occ).map (fun c => (c.t, c.id)) =
        l.map (fun c => (c.t, c.id)) := by
  intro l
  induction l with
  | nil => intro occ; simp [tierWalk]
  | cons c rest ih =>
    intro occ
    simp only [tierWalk]
    by_cases hh : now - c.t ≤ h
    · rw [if_pos hh]
      cases hm : c.mark
      · by_cases ho : Int.fdiv (now - c.t) d ∈ occ
        · rw [if_pos ho]; simp [ih]
        · rw [if_neg ho]; simp [ih]
      · simp [ih]
      · simp [ih]
    · rw [if_neg hh]; simp [ih]

/-- The tier fold preserves the candidate payloads. -/
lemma foldl_tierStep_map_proj (now : Int) :
    ∀ (rules : List (Int × Int)) (mcs : List MarkedCand),
      (rules.foldl (tierStep now) mcs).map (fun c => (c.t, c.id)) =
        mcs.map (fun c => (c.t, c.id)) := by
  intro rules
  induction rules with
  | nil => intro mcs; rfl
  | cons r rest ih =>
    intro mcs
    simp only [List.foldl_cons]
    rw [ih]
    simp only [tierStep]
    rw [List.map_reverse, tierWalk_map_proj, ← List.map_reverse,
      List.reverse_reverse]

/-- The engine only ever reports candidates it was given. -/
lemma getDeletes_mem (rules : List (Int × Int)) (now : Int)
    (cands : List (Int × String)) :
    ∀ p ∈ getDeletes rules now cands, p ∈ cands := by
  intro p hp
  simp only [getDeletes] at hp
  obtain ⟨c, hc, hpc⟩ := List.mem_map.mp hp
  have hc' : c ∈ rules.foldl (tierStep now)
      (cands.map (fun q => MarkedCand.mk q.1 q.2 Mark.unmarked)) :=
    List.mem_of_mem_filter hc
  have hmem : (c.t, c.id) ∈ (rules.foldl (tierStep now)
      (cands.map (fun q => MarkedCand.mk q.1 q.2 Mark.unmarked))).map
        (fun c => (c.t, c.id)) :=
    List.mem_map_of_mem _ hc'
  rw [foldl_tierStep_map_proj, List.map_map] at hmem
  simp at hmem
  rw [← hpc]
  exact hmem

/-- A sole candidate is the newest of every tier's first window (or out of
the tier's horizon) and thus never marked for deletion. -/
lemma foldl_tierStep_singleton (now : Int) :
    ∀ (rules : List (Int × Int)) (c : MarkedCand), c.mark ≠ Mark.del →
      ∃ c', rules.foldl (tierStep now) [c] = [c'] ∧ c'.mark ≠ Mark.del ∧
        c'.t = c.t ∧ c'.id = c.id := by
  intro rules
  induction rules with
  | nil => intro c hc; exact ⟨c, rfl, hc, rfl, rfl⟩
  | cons r rest ih =>
    intro c hc
    simp only [List.foldl_cons]
    have step : ∃ c'', tierStep now [c] r = [c''] ∧ c''.mark ≠ Mark.del ∧
        c''.t = c.t ∧ c''.id = c.id := by
      simp only [tierStep, List.reverse_cons, List.reverse_nil,
        List.nil_append, tierWalk]
      by_cases hh : now - c.t ≤ r.1
      · rw [if_pos hh]
        cases hm : c.mark
        · simp
        · exact ⟨c, by simp, by rw [hm]; simp, rfl, rfl⟩
        · exact absurd hm hc
      · rw [if_neg hh]
        exact ⟨c, by simp, hc, rfl, rfl⟩
    obtain ⟨c'', h1, h2, h3, h4⟩ := step
    rw [h1]
    obtain ⟨c', g1, g2, g3, g4⟩ := ih c'' h2
    exact ⟨c', g1, g2, h3 ▸ g3, h4 ▸ g4⟩

/-- With only the placeholder as candidate, the engine reports nothing. -/
lemma getDeletes_singleton (rules : List (Int × Int)) (now t : Int)
    (ident : String) :
    getDeletes rules now [(t, ident)] = [] := by
  simp only [getDeletes, List.map_cons, List.map_nil]
  obtain ⟨c', h1, h2, _, _⟩ :=
    foldl_tierStep_singleton now rules ⟨t, ident, Mark.unmarked⟩ (by simp)
  rw [h1]
  have : decide (c'.mark = Mark.del) = false := by
    simpa using h2
  simp [List.filter, this]

/-! ### Claims -/

/-- C1: the scheduled path never deletes below the minimum-retention
floor: whatever the retention engine reports, every `(timestamp, target)`
pair with a non-empty target that the orchestrator actually deletes
satisfies `now - timestamp > min_keep_secs`; pairs at or below the floor
are left untouched (deferral happens by not deleting this run, not by
exempting them from the report). -/
theorem scheduled_min_keep_floor
    (engine : Int → List (Int × String) → List (Int × String))
    (minKeep now buffer : Int) (nowStr : String) (cfg : Config)
    (snaps : List Snapshot) :
    (∀ p ∈ (applyDeletionRules engine minKeep now snaps).2,
      p.2 ≠ "" ∧ now - p.1 > minKeep)
    ∧ ∀ p ∈ (scheduled cfg buffer now nowStr snaps).deletedPairs,
      p.2 ≠ "" ∧ now - p.1 > cfg.minKeepSecs := by
  constructor
  · intro p hp
    obtain ⟨a, b, _⟩ := deletionLoop_deleted_sound now minKeep _ p hp
    exact ⟨a, b⟩
  · intro p hp
    simp only [scheduled] at hp
    split at hp
    · simp [SchedResult.noop] at hp
    · split at hp
      · simp [SchedResult.noop] at hp
      · simp only at hp
        obtain ⟨a, b, _⟩ :=
          deletionLoop_deleted_sound now cfg.minKeepSecs _ p hp
        exact ⟨a, b⟩

/-- Witness for C1 at a concrete input. -/
theorem scheduled_min_keep_floor_witness :
    ((0 : Int), "x").2 ≠ "" ∧ (100 : Int) - 0 > 10 :=
  (scheduled_min_keep_floor (fun _ _ => [((0 : Int), "x")]) 10 100 0 "" cfgA
    []).1 (0, "x") (by decide)

/-- C2: with at least one S-tagged snapshot, the next eligible trigger
instant is `(floor(last_S_timestamp / trigger_interval) + 1) *
trigger_interval` at phase 0, and `scheduled` no-ops whenever `now` is
earlier than that instant minus the guard buffer; with no S-tagged
snapshot, the trigger is immediately eligible and (on a compatible volume)
a new S snapshot is created. -/
theorem scheduled_periodic_grid (cfg : Config) (buffer now : Int)
    (nowStr : String) (snaps : List Snapshot) :
    (∀ lastS,
      (snaps.filter (fun x => strContainsChar x.metadata.trigger 'S')).getLast?
          = some lastS →
      nextTriggerTime cfg snaps =
        some ((Int.fdiv lastS.snaptime cfg.triggerInterval + 1)
          * cfg.triggerInterval)
      ∧ (now < (Int.fdiv lastS.snaptime cfg.triggerInterval + 1)
            * cfg.triggerInterval - buffer →
          scheduled cfg buffer now nowStr snaps = SchedResult.noop))
    ∧ ((snaps.filter (fun x => strContainsChar x.metadata.trigger 'S')) = [] →
        nextTriggerTime cfg snaps = none
        ∧ (cfg.compatible = true →
            scheduled cfg buffer now nowStr snaps =
              ⟨[mkSnapshot cfg now nowStr "S" none], []⟩)) := by
  constructor
  · intro lastS hlast
    have hnt : nextTriggerTime cfg snaps =
        some ((Int.fdiv lastS.snaptime cfg.triggerInterval + 1)
          * cfg.triggerInterval) := by
      simp only [nextTriggerTime]
      rw [hlast]
    refine ⟨hnt, fun hlt => ?_⟩
    have hle : now ≤ (Int.fdiv lastS.snaptime cfg.triggerInterval + 1)
        * cfg.triggerInterval - buffer := le_of_lt hlt
    by_cases hcomp : cfg.compatible = false
    · simp [scheduled, hcomp]
    · simp [scheduled, hcomp, hnt, hle]
  · intro hempty
    have hnt : nextTriggerTime cfg snaps = none := by
      simp only [nextTriggerTime]
      rw [hempty]
      rfl
    refine ⟨hnt, fun hcomp => ?_⟩
    simp only [scheduled, hcomp, Bool.true_eq_false, if_false, hnt,
      hempty, applyDeletionRules, deletionCandidates, List.filter_nil,
      List.map_nil, List.nil_append, getDeletes_singleton, deletionLoop,
      if_true, Bool.false_eq_true, reduceIte]

/-- Witness for C2: within the guard window nothing happens; with no prior
S snapshot a new S snapshot is created immediately. -/
theorem scheduled_periodic_grid_witness :
    scheduled cfgA 300 10000 "19700101024640" [snapS1] = SchedResult.noop
    ∧ scheduled cfgA 300 10000 "19700101024640" [] =
        ⟨[mkSnapshot cfgA 10000 "19700101024640" "S" none], []⟩ :=
  ⟨((scheduled_periodic_grid cfgA 300 10000 "19700101024640" [snapS1]).1
      snapS1 (by decide)).2 (by decide),
   ((scheduled_periodic_grid cfgA 300 10000 "19700101024640" []).2
      rfl).2 rfl⟩

/-- C3: evaluation at the failing input.  With `count = 5` and only three
pre-existing same-trigger snapshots there is no excess (3 + 1 ≤ 5), yet
`_create_and_maintain_n_backups` deletes the two oldest: `_all_but_last_k`
computes the slice `previous[:3 - 4] = previous[:-1]`, which in Python is
the first two elements, not the empty list its contract promises. -/
theorem createAndMaintain_overtrim :
    ((3 : Int) + 1 ≤ 5)
    ∧ (createAndMaintain cfgA 1000 "19700101001640" 5 "U" none
        [snapU1, snapU2, snapU3]).deleted = [snapU1, snapU2]
    ∧ (createAndMaintain cfgA 1000 "19700101001640" 5 "U" none
        [snapU1, snapU2, snapU3]).created =
      [mkSnapshot cfgA 1000 "19700101001640" "U" none] :=
  ⟨by decide, by decide, by decide⟩

/-- C10: evaluation at the failing input.  `_all_but_last_k([1,2,3], 4)`
yields `[1, 2]`, not the empty list that its own docstring ("k >
len(array): Returns empty array.") and the claim promise; the negative
Python slice bound `3 - 4 = -1` counts from the end instead of clamping. -/
theorem allButLastK_overshoot :
    allButLastK ([1, 2, 3] : List Nat) 4 = .ok [1, 2]
    ∧ ([1, 2] : List Nat) ≠ []
    ∧ allButLastK ([1, 2, 3] : List Nat) (-1) = .error "k = -1 < 0" :=
  ⟨rfl, by decide, rfl⟩

/-- C7: `on_pacman` no-ops exactly when the most recent I-tagged snapshot
is younger than `preinstall_interval`; otherwise (or with no I-tagged
snapshot at all) it runs the same create-and-maintain operation as
`create`, with `keep_preinstall` and trigger `"I"`, which on a compatible
volume with a positive quota creates the new I-tagged snapshot. -/
theorem onPacman_preinstall_gate (cfg : Config) (now : Int) (nowStr : String)
    (comment : Option String) (snaps : List Snapshot) :
    (∀ lastI,
      (snaps.filter (fun x => x.metadata.trigger = "I")).getLast? = some lastI →
      (now - lastI.snaptime < cfg.preinstallInterval →
        onPacman cfg now nowStr comment snaps = OpResult.noop)
      ∧ (cfg.preinstallInterval ≤ now - lastI.snaptime →
          onPacman cfg now nowStr comment snaps =
            createAndMaintain cfg now nowStr cfg.keepPreinstall "I" comment
              snaps))
    ∧ ((snaps.filter (fun x => x.metadata.trigger = "I")).getLast? = none →
        onPacman cfg now nowStr comment snaps =
          createAndMaintain cfg now nowStr cfg.keepPreinstall "I" comment
            snaps)
    ∧ (cfg.compatible = true → 0 < cfg.keepPreinstall →
        (createAndMaintain cfg now nowStr cfg.keepPreinstall "I" comment
          snaps).created = [mkSnapshot cfg now nowStr "I" comment]) := by
  refine ⟨fun lastI hlast => ⟨fun hlt => ?_, fun hge => ?_⟩,
    fun hnone => ?_, fun hcomp hk => ?_⟩
  · simp [onPacman, hlast, hlt]
  · have h : ¬ (now - lastI.snaptime < cfg.preinstallInterval) :=
      not_lt.mpr hge
    simp [onPacman, hlast, h]
  · simp [onPacman, hnone]
  · simp [createAndMaintain, hcomp, hk]

/-- Witness for C7: a 800-second-old I snapshot defers, and the
create-and-maintain path creates the I snapshot. -/
theorem onPacman_preinstall_gate_witness :
    onPacman cfgA 1000 "19700101001640" none [snapI1] = OpResult.noop
    ∧ (createAndMaintain cfgA 1000 "19700101001640" cfgA.keepPreinstall "I"
        none []).created = [mkSnapshot cfgA 1000 "19700101001640" "I" none] :=
  ⟨((onPacman_preinstall_gate cfgA 1000 "19700101001640" none [snapI1]).1
      snapI1 (by decide)).1 (by decide),
   (onPacman_preinstall_gate cfgA 1000 "19700101001640" none []).2.2
      rfl (by decide)⟩

/-- C9: the scheduled path only ever deletes S-tagged snapshots: every
deleted `(timestamp, target)` pair originates from a snapshot whose
trigger is exactly `"S"` (scheduled pre-filters to triggers containing
`"S"`, `_apply_deletion_rules` to triggers in `{"", "S"}`, and the engine
reports only candidates it was given), so U- and I-tagged snapshots are
untouched by any `scheduled()` invocation. -/
theorem scheduled_frame_only_S (cfg : Config) (buffer now : Int)
    (nowStr : String) (snaps : List Snapshot) :
    ∀ p ∈ (scheduled cfg buffer now nowStr snaps).deletedPairs,
      ∃ s ∈ snaps, s.metadata.trigger = "S" ∧ p = (s.snaptime, s.target) := by
  intro p hp
  simp only [scheduled] at hp
  split at hp
  · simp [SchedResult.noop] at hp
  · split at hp
    · simp [SchedResult.noop] at hp
    · simp only at hp
      obtain ⟨hne, _, hmem⟩ :=
        deletionLoop_deleted_sound now cfg.minKeepSecs _ p hp
      have hcand := getDeletes_mem cfg.deletionRules now _ p hmem
      simp only [deletionCandidates, List.mem_append] at hcand
      rcases hcand with hmap | hplace
      · obtain ⟨s, hs, hps⟩ := List.mem_map.mp hmap
        have hs' := List.mem_filter.mp hs
        have hs'' := List.mem_filter.mp hs'.1
        refine ⟨s, hs''.1, ?_, hps.symm⟩
        have hd := of_decide_eq_true hs'.2
        rcases hd with h0 | hS
        · exfalso
          have hcs := hs''.2
          rw [h0] at hcs
          simp [strContainsChar] at hcs
        · exact hS
      · exfalso
        simp only [List.mem_singleton] at hplace
        rw [hplace] at hne
        exact hne rfl

/-- Witness for C9: a run in which an S snapshot is actually deleted; the
deleted pair is traced back to an S-tagged snapshot. -/
theorem scheduled_frame_only_S_witness :
    ∃ s ∈ [snapS1, snapS2], s.metadata.trigger = "S" ∧
      ((100 : Int), "/.snapshots/@home-19700101000140") =
        (s.snaptime, s.target) :=
  scheduled_frame_only_S cfgA 300 50000 "19700102000000" [snapS1, snapS2]
    (100, "/.snapshots/@home-19700101000140") (by decide)

/-- No snapshot value ever equals a filter iterator object. -/
lemma snapObj_not_mem_iterObjs (s : Snapshot) (l : List Nat) :
    PyObj.snapObj s ∉ l.map PyObj.filterIterObj := by
  intro h
  obtain ⟨i, _, hi⟩ := List.mem_map.mp h
  exact PyObj.noConfusion hi

/-- C4: evaluation of the batch filter composition.  `intersection_update`
receives the generator itself as its single iterable argument, so the
snapshot set is intersected with the `filter(...)` iterator objects and
always comes out empty: every configuration maps to `[]`, for every
mapping and every filter set.  At the claim's concrete input (snapshots
tagged S/I/U, an I indicator filter and a time scope covering exactly the
I-tagged ones) the code returns `[]` although the snapshots passing all
active filters are exactly the two I-tagged ones. -/
theorem applySnapshotFilters_always_empty :
    (∀ (mapping : List (Config × List Snapshot))
        (filters : List BatchFilter),
      applySnapshotFilters mapping filters =
        mapping.map (fun p => (p.1, [])))
    ∧ applySnapshotFilters [(cfgA, [snapS1, snapI1, snapI2, snapU1])]
        [BatchFilter.ind (IndicatorFilter.init "I"),
         BatchFilter.scope ⟨true, 150, 350⟩] = [(cfgA, [])]
    ∧ TimeScopeFilter.init "19700101000230" "19700101000550" =
        some ⟨true, 150, 350⟩
    ∧ specFilterComposition [snapS1, snapI1, snapI2, snapU1]
        [BatchFilter.ind (IndicatorFilter.init "I"),
         BatchFilter.scope ⟨true, 150, 350⟩] = [snapI1, snapI2] := by
  refine ⟨fun mapping filters => ?_, by decide, by decide, by decide⟩
  have hf : ∀ p : Config × List Snapshot,
      (p.2.dedup).filter (fun s => decide (PyObj.snapObj s ∈
        (List.range filters.length).map PyObj.filterIterObj)) = [] := by
    intro p
    rw [List.filter_eq_nil_iff]
    intro a _
    simp only [decide_eq_true_eq]
    exact snapObj_not_mem_iterObjs a _
  simp only [applySnapshotFilters]
  refine List.map_congr_left (fun p _ => ?_)
  rw [hf p]
  rfl

/-- C5 counterexample: a `TimeScopeFilter` built from a start bound alone
(start `1970-01-01 00:02:30`, end missing) rejects a snapshot lying inside
`[start, datetime.max)`, because `_available` is false whenever either
bound is missing — not only when both are. -/
theorem timeScopeFilter_one_bound_counterexample :
    TimeScopeFilter.init "19700101000230" "" =
      some ⟨false, 150, datetimeMaxTs⟩
    ∧ TimeScopeFilter.call ⟨false, 150, datetimeMaxTs⟩ snapU1 = false
    ∧ ((150 : Int) ≤ snapU1.snaptime ∧ snapU1.snaptime < datetimeMaxTs) :=
  ⟨by decide, by decide, by decide⟩

/-- A constructed `TimeScopeFilter` is available iff both bound strings
were supplied. -/
lemma timeScopeFilter_init_available (startStr endStr : String)
    (f : TimeScopeFilter)
    (h : TimeScopeFilter.init startStr endStr = some f) :
    f.available = (startStr ≠ "" && endStr ≠ "") := by
  simp only [TimeScopeFilter.init] at h
  split at h
  · injection h with h'
    rw [← h']
  · exact Option.noConfusion h

/-- C5 amended: a `TimeScopeFilter` with any missing bound (one or both)
is unavailable and matches no snapshot; only with both bounds supplied
does it match exactly `start ≤ snaptime < end`. -/
theorem timeScopeFilter_amended (startStr endStr : String)
    (f : TimeScopeFilter) (snap : Snapshot)
    (h : TimeScopeFilter.init startStr endStr = some f) :
    ((startStr = "" ∨ endStr = "") → f.call snap = false)
    ∧ (startStr ≠ "" → endStr ≠ "" →
        f.call snap =
          decide (f.startTs ≤ snap.snaptime ∧ snap.snaptime < f.endTs)) := by
  have hav := timeScopeFilter_init_available startStr endStr f h
  constructor
  · intro hor
    have hfa : f.available = false := by
      rw [hav]; rcases hor with h1 | h1 <;> simp [h1]
    simp [TimeScopeFilter.call, hfa]
  · intro h1 h2
    have hfa : f.available = true := by rw [hav]; simp [h1, h2]
    simp [TimeScopeFilter.call, hfa]

/-- Witness for the amended C5: with both bounds supplied the filter
evaluates the range test. -/
theorem timeScopeFilter_amended_witness :
    TimeScopeFilter.call ⟨true, 150, 350⟩ snapI1 =
      decide ((150 : Int) ≤ snapI1.snaptime ∧ snapI1.snaptime < 350) :=
  (timeScopeFilter_amended "19700101000230" "19700101000550"
    ⟨true, 150, 350⟩ snapI1 (by decide)).2 (by decide) (by decide)

/-- C6: suffix normalization maps the canonical fourteen-digit string to
itself and the ISO-8601 form of the same instant to the same canonical
string, and every string in neither format produces the user-facing
format error (a caught `ValueError` with a help message, not a crash). -/
theorem iso8601_normalization :
    iso8601ToTimestampString "20241101201015" = .ok "20241101201015"
    ∧ iso8601ToTimestampString "2024-11-01T20:10:15" = .ok "20241101201015"
    ∧ ∀ s, strptime14 s = none → fromisoformat s = none →
        ∃ msg, iso8601ToTimestampString s = .error msg := by
  refine ⟨rfl, rfl, fun s h1 h2 => ?_⟩
  simp only [iso8601ToTimestampString, h1, h2]
  exact ⟨_, rfl⟩

/-- Witness for C6: a malformed string hits the error branch. -/
theorem iso8601_normalization_witness :
    ∃ msg, iso8601ToTimestampString "not-a-date" = .error msg :=
  iso8601_normalization.2.2 "not-a-date" rfl rfl

/-- C8: evaluation at the failing input.  One configuration whose snap
type is not btrfs holds a snapshot matching the suffix: `_delete_snap`
deletes it, yet — because the not-found message is keyed on the
btrfs-only `to_sync` list staying empty — still reports "Target not found
in any config.", contradicting both halves of the claim (reporting
despite a match, and mutating despite reporting). -/
theorem deleteSnap_notfound_misreport :
    deleteSnap [(cfgA, [snapU1])] "19700101000640" =
      .ok ⟨["/.snapshots/@home-19700101000640"], [], true⟩
    ∧ findTarget [snapU1] "19700101000640" = .ok (some snapU1) :=
  ⟨rfl, rfl⟩

end Yabsnap
